import Mathlib

/-!
Shallow embedding of the EcoFinds marketplace application (`src/app.py`).

The application is a Flask + SQLAlchemy web app over a SQLite store.  We
model the database as an explicit `Store` value (lists of rows plus
autoincrement counters) and each route handler as a pure function
`Store → arguments → Res α × Store`.  Form fields arrive as raw strings,
exactly as `request.form.get` hands them to the handlers; `datetime.utcnow`
is modelled by an explicit `now : Nat` argument.

Modelling decisions, recorded here once:
* Prices are SQLite floats; we model them as `ℚ`.  `float(...)` parsing is
  modelled by `pythonFloat` (decimal literals with optional sign and
  fractional part; exponents/inf/nan are not needed by any claim).
* `int(...)` parsing of quantity fields is modelled by `pythonInt`
  (optional sign, decimal digits, surrounding whitespace stripped); a
  Python `ValueError` from `int()` or a `ValueError`/`AttributeError`
  escaping a handler is the `Res.crash` outcome, and since Flask-SQLAlchemy
  rolls back an uncommitted session, the store is returned unchanged.
* `Product.title.ilike("%" + q + "%")` interpolates the user's search text
  unescaped into a SQL LIKE pattern, so `ilike_contains` performs genuine
  LIKE matching (`likeMatch`): `%` matches any run, `_` any single
  character, case-folded on both sides as SQLite's ASCII-case-insensitive
  LIKE does.
* The app never issues `PRAGMA foreign_keys=ON` and configures no ORM
  cascade from `Product` to `CartItem`, so SQLite does not enforce the
  `CartItem.product_id` foreign key: `db.session.delete(product)` removes
  only the product row and leaves referencing cart rows in place.
* `werkzeug.security.generate_password_hash` / `check_password_hash` are an
  external library; they are modelled by their contract: checking succeeds
  exactly on the hashed password.
-/

namespace EcoFinds

/-- The closed category set (`CATEGORIES`, app.py lines 31-34). -/
def CATEGORIES : List String :=
  ["Clothing", "Electronics", "Home & Kitchen", "Books",
   "Furniture", "Sports", "Toys", "Other"]

/-- `PLACEHOLDER_IMG` (app.py line 35). -/
def PLACEHOLDER_IMG : String := "https://placehold.co/600x400?text=EcoFinds"

/-- `User` model row (app.py lines 40-54). -/
structure User where
  id : Nat
  email : String
  password_hash : String
  username : String
  deriving Repr, DecidableEq

/-- `Product` model row (app.py lines 57-69).  `image_url` is set by every
code path that creates or edits a product, so it is a plain `String`;
Python falsiness of the empty string is checked explicitly in `Product.image`. -/
structure Product where
  id : Nat
  title : String
  description : String
  category : String
  price : ℚ
  image_url : String
  created_at : Nat
  seller_id : Nat
  deriving Repr, DecidableEq

/-- `CartItem` model row (app.py lines 72-78). -/
structure CartItem where
  id : Nat
  quantity : Int
  user_id : Nat
  product_id : Nat
  deriving Repr, DecidableEq

/-- `Order` model row (app.py lines 81-87). -/
structure Order where
  id : Nat
  created_at : Nat
  total_amount : ℚ
  user_id : Nat
  deriving Repr, DecidableEq

/-- `OrderItem` model row (app.py lines 90-97). -/
structure OrderItem where
  id : Nat
  order_id : Nat
  product_title : String
  product_price : ℚ
  quantity : Int
  product_category : String
  product_image_url : String
  deriving Repr, DecidableEq

/-- The SQLite database: one list of rows per table plus the autoincrement
counter of each table's integer primary key. -/
structure Store where
  users : List User
  products : List Product
  cart_items : List CartItem
  orders : List Order
  order_items : List OrderItem
  next_user_id : Nat
  next_product_id : Nat
  next_cart_item_id : Nat
  next_order_id : Nat
  next_order_item_id : Nat
  deriving Repr, DecidableEq

/-- Error taxonomy of the request handlers: each constructor corresponds to
one family of `flash(..., "error")`-and-redirect exits. -/
inductive Err where
  | validation
  | conflict
  | authError
  | authorization
  | notFound
  deriving Repr, DecidableEq

/-- Outcome of a request: success with a value, a handled error, or an
unhandled Python exception (`crash`) that escapes the handler. -/
inductive Res (α : Type) where
  | ok (a : α)
  | err (e : Err)
  | crash
  deriving Repr, DecidableEq

/-- Python `str.strip()`: drop whitespace from both ends (modelled directly
on the character list so that concrete instances evaluate). -/
def pyStrip (s : String) : String :=
  ⟨(((s.data.dropWhile Char.isWhitespace).reverse.dropWhile Char.isWhitespace).reverse)⟩

/-- Python `str.lower()` for the ASCII strings the handlers deal with. -/
def pyLower (s : String) : String :=
  ⟨s.data.map Char.toLower⟩

/-- Value of a run of decimal digits, most significant first. -/
def digitsToNat (l : List Char) : Nat :=
  l.foldl (fun n c => 10 * n + (c.toNat - 48)) 0

/-- A non-empty all-digit run. -/
def isDigits (l : List Char) : Bool :=
  !l.isEmpty && l.all (·.isDigit)

/-- Python `int(str)`: optional surrounding whitespace, optional sign,
then a non-empty digit run; anything else raises `ValueError` (`none`). -/
def pythonInt (s : String) : Option Int :=
  match (pyStrip s).data with
  | '+' :: rest => if isDigits rest then some (digitsToNat rest : Int) else none
  | '-' :: rest => if isDigits rest then some (-(digitsToNat rest : Int)) else none
  | rest => if isDigits rest then some (digitsToNat rest : Int) else none

/-- Unsigned decimal literal: `digits`, `digits.`, `digits.digits` or
`.digits`. -/
def parseUnsignedDec (l : List Char) : Option ℚ :=
  let intPart := l.takeWhile (·.isDigit)
  let rest := l.dropWhile (·.isDigit)
  match rest with
  | [] => if intPart.isEmpty then none else some (digitsToNat intPart : ℚ)
  | '.' :: frac =>
      if frac.all (·.isDigit) && (!intPart.isEmpty || !frac.isEmpty) then
        some ((digitsToNat intPart : ℚ) + (digitsToNat frac : ℚ) / ((10 : ℚ) ^ frac.length))
      else none
  | _ => none

/-- Python `float(str)` restricted to plain decimal literals (sufficient
for every claim): optional surrounding whitespace and sign. -/
def pythonFloat (s : String) : Option ℚ :=
  match (pyStrip s).data with
  | '+' :: rest => parseUnsignedDec rest
  | '-' :: rest => (parseUnsignedDec rest).map (fun q => -q)
  | rest => parseUnsignedDec rest

/-- `Product.image` (app.py lines 68-69): the stripped image URL, or the
placeholder when the stored URL is falsy (empty). -/
def Product.image (p : Product) : String :=
  if p.image_url = "" then PLACEHOLDER_IMG else pyStrip p.image_url

/-- `werkzeug.security.generate_password_hash`, modelled by its contract
(external library: produces a salted hash that verifies only against the
hashed password). -/
def generate_password_hash (password : String) : String :=
  "pbkdf2$" ++ password

/-- `werkzeug.security.check_password_hash`, modelled by its contract. -/
def check_password_hash (hash password : String) : Bool :=
  hash == "pbkdf2$" ++ password

/-- `register` POST handler (app.py lines 124-146): strip and lowercase the
email, strip password and username, reject blanks, reject an already
registered email, otherwise insert the user.  Returns the new user's id. -/
def register (s : Store) (emailRaw passwordRaw usernameRaw : String) :
    Res Nat × Store :=
  let email := pyLower (pyStrip emailRaw)
  let password := pyStrip passwordRaw
  let username := pyStrip usernameRaw
  if email = "" ∨ password = "" ∨ username = "" then
    (.err .validation, s)
  else if (s.users.find? (fun u => u.email == email)).isSome then
    (.err .conflict, s)
  else
    let u : User := ⟨s.next_user_id, email, generate_password_hash password, username⟩
    (.ok s.next_user_id,
     { s with users := s.users ++ [u], next_user_id := s.next_user_id + 1 })

/-- `login` POST handler (app.py lines 149-161): strip/lowercase the email,
strip the password, look the user up by email and check the password hash.
Returns the id of the logged-in user. -/
def login (s : Store) (emailRaw passwordRaw : String) : Res Nat × Store :=
  let email := pyLower (pyStrip emailRaw)
  let password := pyStrip passwordRaw
  match s.users.find? (fun u => u.email == email) with
  | none => (.err .authError, s)
  | some u =>
      if check_password_hash u.password_hash password then (.ok u.id, s)
      else (.err .authError, s)

/-- `add_product` POST handler (app.py lines 189-222), acting as user `uid`:
strip all form fields, reject blank title/description/price or a category
outside `CATEGORIES`, reject an unparseable price, otherwise insert the
product (blank image URL replaced by the placeholder).  Note: the parsed
price is stored without any sign check. -/
def add_product (s : Store) (uid : Nat)
    (titleRaw descriptionRaw categoryRaw priceRaw imageRaw : String)
    (now : Nat) : Res Nat × Store :=
  let title := pyStrip titleRaw
  let description := pyStrip descriptionRaw
  let category := pyStrip categoryRaw
  let priceStr := pyStrip priceRaw
  let image_url := pyStrip imageRaw
  if title = "" ∨ description = "" ∨ ¬ (CATEGORIES.contains category = true) ∨ priceStr = "" then
    (.err .validation, s)
  else
    match pythonFloat priceStr with
    | none => (.err .validation, s)
    | some price =>
        let p : Product :=
          ⟨s.next_product_id, title, description, category, price,
           (if image_url = "" then PLACEHOLDER_IMG else image_url), now, uid⟩
        (.ok s.next_product_id,
         { s with products := s.products ++ [p],
                  next_product_id := s.next_product_id + 1 })

/-- `edit_product` POST handler (app.py lines 231-261), acting as user
`uid` on product `pid`: 404 if absent, authorization check against the
owning seller, then the same field validation as `add_product`, then full
replace of the mutable fields. -/
def edit_product (s : Store) (uid pid : Nat)
    (titleRaw descriptionRaw categoryRaw priceRaw imageRaw : String) :
    Res Unit × Store :=
  match s.products.find? (fun p => p.id == pid) with
  | none => (.err .notFound, s)
  | some p =>
      if p.seller_id != uid then (.err .authorization, s)
      else
        let title := pyStrip titleRaw
        let description := pyStrip descriptionRaw
        let category := pyStrip categoryRaw
        let priceStr := pyStrip priceRaw
        let image_url := pyStrip imageRaw
        if title = "" ∨ description = "" ∨ ¬ (CATEGORIES.contains category = true) ∨ priceStr = "" then
          (.err .validation, s)
        else
          match pythonFloat priceStr with
          | none => (.err .validation, s)
          | some price =>
              (.ok (),
               { s with products := s.products.map (fun q =>
                   if q.id == pid then
                     { q with title := title, description := description,
                              category := category, price := price,
                              image_url := (if image_url = "" then PLACEHOLDER_IMG else image_url) }
                   else q) })

/-- `delete_product` POST handler (app.py lines 264-274), acting as user
`uid`: 404 if absent, authorization check, then `db.session.delete(product)`.
SQLite runs with foreign keys unenforced and no ORM cascade is configured,
so only the product row is removed; cart rows referencing it stay. -/
def delete_product (s : Store) (uid pid : Nat) : Res Unit × Store :=
  match s.products.find? (fun p => p.id == pid) with
  | none => (.err .notFound, s)
  | some p =>
      if p.seller_id != uid then (.err .authorization, s)
      else
        (.ok (), { s with products := s.products.filter (fun q => q.id != pid) })

/-- The quantity form field as the handlers read it:
`int(request.form.get("quantity", 1))` — the absent field defaults to the
integer `1`, a present field is parsed by `int`, whose `ValueError`
(`none`) escapes the handler. -/
def parseQuantityField (quantityField : Option String) : Option Int :=
  match quantityField with
  | none => some 1
  | some str => pythonInt str

/-- `cart_add` POST handler (app.py lines 285-297), acting as user `uid` on
product `pid`: 404 if the product is absent, look for an existing cart line
of (user, product), parse the quantity field (an unparseable one raises and
crashes the request before any mutation), then increment the existing line
by `max 1 qty` or insert a fresh line with quantity `max 1 qty`. -/
def cart_add (s : Store) (uid pid : Nat) (quantityField : Option String) :
    Res Unit × Store :=
  match s.products.find? (fun p => p.id == pid) with
  | none => (.err .notFound, s)
  | some p =>
      let existing := s.cart_items.find? (fun i => i.user_id == uid && i.product_id == p.id)
      match parseQuantityField quantityField with
      | none => (.crash, s)
      | some qty =>
          match existing with
          | some it =>
              (.ok (), { s with cart_items := s.cart_items.map (fun j =>
                 if j.id == it.id then { j with quantity := j.quantity + max 1 qty } else j) })
          | none =>
              (.ok (), { s with
                 cart_items := s.cart_items ++ [⟨s.next_cart_item_id, max 1 qty, uid, p.id⟩],
                 next_cart_item_id := s.next_cart_item_id + 1 })

/-- `cart_update` POST handler (app.py lines 300-311), acting as user `uid`
on cart line `item_id`: 404 if absent, ownership check, parse the quantity
field (crash on `ValueError`), then set the quantity to `max 1 qty`. -/
def cart_update (s : Store) (uid item_id : Nat) (quantityField : Option String) :
    Res Unit × Store :=
  match s.cart_items.find? (fun i => i.id == item_id) with
  | none => (.err .notFound, s)
  | some it =>
      if it.user_id != uid then (.err .authorization, s)
      else
        match parseQuantityField quantityField with
        | none => (.crash, s)
        | some qty =>
            (.ok (), { s with cart_items := s.cart_items.map (fun j =>
               if j.id == item_id then { j with quantity := max 1 qty } else j) })

/-- `cart_remove` POST handler (app.py lines 314-324). -/
def cart_remove (s : Store) (uid item_id : Nat) : Res Unit × Store :=
  match s.cart_items.find? (fun i => i.id == item_id) with
  | none => (.err .notFound, s)
  | some it =>
      if it.user_id != uid then (.err .authorization, s)
      else (.ok (), { s with cart_items := s.cart_items.filter (fun j => j.id != item_id) })

/-- The loop body of `checkout` (app.py lines 340-351): walk the user's
cart lines in order, look each line's product up (`item.product` is `None`
for a dangling reference, so the lookup failure is a crash), emit one
`OrderItem` per line snapshotting title/price/category/image plus the
line's quantity, and accumulate the running total.  `k` is the next
order-item id. -/
def order_lines (s : Store) (oid : Nat) :
    Nat → List CartItem → Option (List OrderItem × ℚ)
  | _, [] => some ([], 0)
  | k, it :: rest =>
      match s.products.find? (fun p => p.id == it.product_id) with
      | none => none
      | some p =>
          match order_lines s oid (k + 1) rest with
          | none => none
          | some (ois, t) =>
              some (⟨k, oid, p.title, p.price, it.quantity, p.category, p.image⟩ :: ois,
                    p.price * (it.quantity : ℚ) + t)

/-- `checkout` POST handler (app.py lines 327-356), acting as user `uid`:
reject an empty cart, otherwise create one order, convert every cart line
of the user into an order item while accumulating the total, delete the
user's cart lines, set the order total and commit — all in one
transaction, so a crash (dangling product reference) leaves the store
unchanged.  Returns the new order's id. -/
def checkout (s : Store) (uid : Nat) (now : Nat) : Res Nat × Store :=
  let items := s.cart_items.filter (fun i => i.user_id == uid)
  if items = [] then (.err .validation, s)
  else
    let oid := s.next_order_id
    match order_lines s oid s.next_order_item_id items with
    | none => (.crash, s)
    | some (ois, total) =>
        (.ok oid,
         { s with
           orders := s.orders ++ [⟨oid, now, total, uid⟩],
           order_items := s.order_items ++ ois,
           cart_items := s.cart_items.filter (fun i => i.user_id != uid),
           next_order_id := oid + 1,
           next_order_item_id := s.next_order_item_id + ois.length })

/-- An empty database (fresh autoincrement counters). -/
def store0 : Store := ⟨[], [], [], [], [], 1, 1, 1, 1, 1⟩

/-- A sample product owned by user 1, used for concrete instances. -/
def prodP : Product := ⟨1, "Lamp", "bedside lamp", "Other", 5, "img", 0, 1⟩

/-- A sample cart line: user 2 has product 1 in the cart with quantity 2. -/
def itemP : CartItem := ⟨1, 2, 2, 1⟩

/-- A sample database: two users, one product of user 1, one cart line of
user 2 referencing it. -/
def storeP : Store :=
  { users := [⟨1, "a@x.com", "pbkdf2$p", "alice"⟩, ⟨2, "b@x.com", "pbkdf2$q", "bob"⟩],
    products := [prodP],
    cart_items := [itemP],
    orders := [],
    order_items := [],
    next_user_id := 3, next_product_id := 2, next_cart_item_id := 2,
    next_order_id := 1, next_order_item_id := 1 }

/-- C9: for every user with zero CartItems, checkout fails with a
ValidationError ("empty cart") and has no effect at all — the store (hence
the orders and order_items tables) is returned unchanged. -/
theorem C9_checkout_empty_cart (s : Store) (uid now : Nat)
    (h : s.cart_items.filter (fun i => i.user_id == uid) = []) :
    checkout s uid now = (Res.err Err.validation, s) := by
  simp [checkout, h]

/-- C9 witness: concrete empty-cart checkout. -/
theorem C9_checkout_empty_cart_witness :
    store0.cart_items.filter (fun i => i.user_id == 1) = [] ∧
    checkout store0 1 0 = (Res.err Err.validation, store0) :=
  ⟨by decide, C9_checkout_empty_cart store0 1 0 (by decide)⟩

/-- C6: an authenticated user who is not the owning seller of an existing
product gets an AuthorizationError from both edit_product and
delete_product, and the store — in particular the product — is entirely
unchanged. -/
theorem C6_non_owner_rejected (s : Store) (uid pid : Nat) (p : Product)
    (t d c pr img : String)
    (hfind : s.products.find? (fun x => x.id == pid) = some p)
    (hown : p.seller_id ≠ uid) :
    edit_product s uid pid t d c pr img = (Res.err Err.authorization, s) ∧
    delete_product s uid pid = (Res.err Err.authorization, s) := by
  unfold edit_product delete_product
  rw [hfind]
  simp [hown]

/-- C6 witness: user 2 attempts to edit and delete user 1's product. -/
theorem C6_non_owner_rejected_witness :
    storeP.products.find? (fun x => x.id == 1) = some prodP ∧
    prodP.seller_id ≠ 2 ∧
    (edit_product storeP 2 1 "t" "d" "Books" "9" "" = (Res.err Err.authorization, storeP) ∧
     delete_product storeP 2 1 = (Res.err Err.authorization, storeP)) :=
  ⟨by decide, by decide,
   C6_non_owner_rejected storeP 2 1 prodP "t" "d" "Books" "9" "" (by decide) (by decide)⟩

/-- C5: edit_product and delete_product never touch the orders table or the
order_items table, whatever their arguments and outcome; so for every Order
produced by checkout, the snapshotted title/price/category/image/quantity
of its OrderItems and its total_amount survive any later product edit or
deletion. -/
theorem C5_order_snapshots_frozen (s : Store) (uid pid : Nat)
    (t d c pr img : String) :
    (edit_product s uid pid t d c pr img).2.orders = s.orders ∧
    (edit_product s uid pid t d c pr img).2.order_items = s.order_items ∧
    (delete_product s uid pid).2.orders = s.orders ∧
    (delete_product s uid pid).2.order_items = s.order_items := by
  unfold edit_product delete_product
  dsimp only
  refine ⟨?_, ?_, ?_, ?_⟩ <;> (repeat' split) <;> rfl

/-- C3 (amended): delete_product by the owning seller always succeeds — it
is never blocked by OrderItems or by referencing CartItems — removes
exactly the rows of that product id, and leaves the cart_items, orders and
order_items tables untouched, so CartItems referencing the product remain
as dangling references. -/
theorem C3_delete_leaves_cart_rows (s : Store) (uid pid : Nat) (p : Product)
    (hfind : s.products.find? (fun x => x.id == pid) = some p)
    (hown : p.seller_id = uid) :
    (delete_product s uid pid).1 = Res.ok () ∧
    (delete_product s uid pid).2.cart_items = s.cart_items ∧
    (delete_product s uid pid).2.orders = s.orders ∧
    (delete_product s uid pid).2.order_items = s.order_items ∧
    (∀ q ∈ (delete_product s uid pid).2.products, q.id ≠ pid) ∧
    (∀ q ∈ s.products, q.id ≠ pid → q ∈ (delete_product s uid pid).2.products) := by
  unfold delete_product
  rw [hfind]
  simp [hown, List.mem_filter]
  exact fun q hq hne => ⟨hq, hne⟩

/-- C3 counterexample: user 2 still has product 1 in the cart; the owning
seller deletes it; the deletion is neither rejected nor cascaded: it
succeeds, the product row is gone, and the cart row still references
product id 1. -/
theorem C3_dangling_cart_reference :
    (delete_product storeP 1 1).1 = Res.ok () ∧
    (delete_product storeP 1 1).2.products = [] ∧
    (delete_product storeP 1 1).2.cart_items = [itemP] ∧
    itemP.product_id = 1 := by
  decide

/-- C3 witness for the amended theorem: the same concrete deletion. -/
theorem C3_delete_leaves_cart_rows_witness :
    storeP.products.find? (fun x => x.id == 1) = some prodP ∧
    prodP.seller_id = 1 ∧
    ((delete_product storeP 1 1).1 = Res.ok () ∧
     (delete_product storeP 1 1).2.cart_items = storeP.cart_items ∧
     (delete_product storeP 1 1).2.orders = storeP.orders ∧
     (delete_product storeP 1 1).2.order_items = storeP.order_items ∧
     (∀ q ∈ (delete_product storeP 1 1).2.products, q.id ≠ 1) ∧
     (∀ q ∈ storeP.products, q.id ≠ 1 → q ∈ (delete_product storeP 1 1).2.products)) :=
  ⟨by decide, by decide, C3_delete_leaves_cart_rows storeP 1 1 prodP (by decide) (by decide)⟩

/-- C2 counterexample: createProduct with the price string "-5" (which
parses to the negative number -5) does not fail — it succeeds and persists
a Product whose price is -5. -/
theorem C2_negative_price_persisted :
    (add_product store0 1 "x" "y" "Books" "-5" "" 0).1 = Res.ok 1 ∧
    ((add_product store0 1 "x" "y" "Books" "-5" "" 0).2.products.map Product.price)
      = [-5] := by
  decide

/-- C2 (amended): for add_product and edit_product, with the other field
validations passing, a price string that fails to parse yields a
ValidationError and no change, while a price string that parses to any
number v — negative included — is accepted: the created (resp. updated)
Product is persisted with price v.  No non-negativity check exists. -/
theorem C2_price_parse_is_only_check (s : Store) (uid pid now : Nat)
    (p0 : Product) (t d c pr img : String)
    (ht : pyStrip t ≠ "") (hd : pyStrip d ≠ "")
    (hc : CATEGORIES.contains (pyStrip c) = true) (hp : pyStrip pr ≠ "")
    (hfind : s.products.find? (fun x => x.id == pid) = some p0)
    (hown : p0.seller_id = uid) :
    (pythonFloat (pyStrip pr) = none →
       add_product s uid t d c pr img now = (Res.err Err.validation, s) ∧
       edit_product s uid pid t d c pr img = (Res.err Err.validation, s)) ∧
    (∀ v, pythonFloat (pyStrip pr) = some v →
       ((add_product s uid t d c pr img now).1 = Res.ok s.next_product_id ∧
        ∃ q ∈ (add_product s uid t d c pr img now).2.products, q.price = v) ∧
       ((edit_product s uid pid t d c pr img).1 = Res.ok () ∧
        ∃ q ∈ (edit_product s uid pid t d c pr img).2.products,
          q.id = p0.id ∧ q.price = v)) := by
  have hpid : p0.id = pid := by simpa using List.find?_some hfind
  have hmem : p0 ∈ s.products := List.mem_of_find?_eq_some hfind
  have hc' : pyStrip c ∈ CATEGORIES := by simpa using hc
  constructor
  · intro hnone
    constructor
    · simp [add_product, ht, hd, hc', hp, hnone]
    · unfold edit_product
      rw [hfind]
      simp [hown, ht, hd, hc', hp, hnone]
  · intro v hv
    constructor
    · constructor
      · simp [add_product, ht, hd, hc', hp, hv]
      · have hps : (add_product s uid t d c pr img now).2.products
            = s.products ++ [⟨s.next_product_id, pyStrip t, pyStrip d, pyStrip c, v,
                (if pyStrip img = "" then PLACEHOLDER_IMG else pyStrip img), now, uid⟩] := by
          simp [add_product, ht, hd, hc', hp, hv]
        rw [hps]
        exact ⟨_, List.mem_append_right _ (List.mem_singleton_self _), rfl⟩
    · constructor
      · unfold edit_product
        rw [hfind]
        simp [hown, ht, hd, hc', hp, hv]
      · unfold edit_product
        rw [hfind]
        simp [hown, ht, hd, hc', hp, hv, List.mem_map]
        exact ⟨p0, hmem, by simp [hpid]⟩

/-- C2 witness for the amended theorem, at the price string "-5". -/
theorem C2_price_parse_is_only_check_witness :
    pyStrip "ttl" ≠ "" ∧ pyStrip "dsc" ≠ "" ∧
    CATEGORIES.contains (pyStrip "Books") = true ∧ pyStrip "-5" ≠ "" ∧
    storeP.products.find? (fun x => x.id == 1) = some prodP ∧
    prodP.seller_id = 1 ∧
    ((pythonFloat (pyStrip "-5") = none →
       add_product storeP 1 "ttl" "dsc" "Books" "-5" "" 0 = (Res.err Err.validation, storeP) ∧
       edit_product storeP 1 1 "ttl" "dsc" "Books" "-5" "" = (Res.err Err.validation, storeP)) ∧
     (∀ v, pythonFloat (pyStrip "-5") = some v →
       ((add_product storeP 1 "ttl" "dsc" "Books" "-5" "" 0).1 = Res.ok storeP.next_product_id ∧
        ∃ q ∈ (add_product storeP 1 "ttl" "dsc" "Books" "-5" "" 0).2.products, q.price = v) ∧
       ((edit_product storeP 1 1 "ttl" "dsc" "Books" "-5" "").1 = Res.ok () ∧
        ∃ q ∈ (edit_product storeP 1 1 "ttl" "dsc" "Books" "-5" "").2.products,
          q.id = prodP.id ∧ q.price = v))) :=
  ⟨by decide, by decide, by decide, by decide, by decide, by decide,
   C2_price_parse_is_only_check storeP 1 1 0 prodP "ttl" "dsc" "Books" "-5" ""
     (by decide) (by decide) (by decide) (by decide) (by decide) (by decide)⟩

/-- C10: when the quantity form field of cart_add or cart_update is a
string that `int()` cannot parse, the handler raises an unhandled exception
(crash — not a ValidationError from the error taxonomy) before the
floor-to-1 step, and the store, in particular the cart, is unchanged. -/
theorem C10_nonint_quantity_crashes (s : Store) (uid pid item_id : Nat)
    (p : Product) (it : CartItem) (qs : String)
    (hp : s.products.find? (fun x => x.id == pid) = some p)
    (hit : s.cart_items.find? (fun i => i.id == item_id) = some it)
    (hown : it.user_id = uid)
    (hbad : pythonInt qs = none) :
    cart_add s uid pid (some qs) = (Res.crash, s) ∧
    cart_update s uid item_id (some qs) = (Res.crash, s) := by
  constructor
  · unfold cart_add
    rw [hp]
    simp [parseQuantityField, hbad]
  · unfold cart_update
    rw [hit]
    simp [hown, parseQuantityField, hbad]

/-- C10 witness: quantity string "2x" on the sample store. -/
theorem C10_nonint_quantity_crashes_witness :
    storeP.products.find? (fun x => x.id == 1) = some prodP ∧
    storeP.cart_items.find? (fun i => i.id == 1) = some itemP ∧
    itemP.user_id = 2 ∧
    pythonInt "2x" = none ∧
    (cart_add storeP 2 1 (some "2x") = (Res.crash, storeP) ∧
     cart_update storeP 2 1 (some "2x") = (Res.crash, storeP)) :=
  ⟨by decide, by decide, by decide, by decide,
   C10_nonint_quantity_crashes storeP 2 1 1 prodP itemP "2x"
     (by decide) (by decide) (by decide) (by decide)⟩

/-- C4: addToCart on an existing product with a quantity field parsing to
`q`: when a cart line for (user, product) exists, its quantity is
incremented by `max 1 q` in place — same number of rows, all other rows
untouched; when none exists, exactly one new line with quantity `max 1 q`
is appended.  Two successive calls with q = 2 therefore merge into one row
of quantity 4. -/
theorem C4_addToCart_merges (s : Store) (uid pid : Nat) (p : Product)
    (qs : String) (q : Int)
    (hp : s.products.find? (fun x => x.id == pid) = some p)
    (hq : pythonInt qs = some q) :
    (∀ it, s.cart_items.find? (fun i => i.user_id == uid && i.product_id == p.id) = some it →
       ∃ s', cart_add s uid pid (some qs) = (Res.ok (), s') ∧
         s'.cart_items.length = s.cart_items.length ∧
         { it with quantity := it.quantity + max 1 q } ∈ s'.cart_items ∧
         (∀ j ∈ s.cart_items, j.id ≠ it.id → j ∈ s'.cart_items)) ∧
    (s.cart_items.find? (fun i => i.user_id == uid && i.product_id == p.id) = none →
       ∃ s', cart_add s uid pid (some qs) = (Res.ok (), s') ∧
         s'.cart_items = s.cart_items ++ [⟨s.next_cart_item_id, max 1 q, uid, p.id⟩]) := by
  constructor
  · intro it hex
    have hmem : it ∈ s.cart_items := List.mem_of_find?_eq_some hex
    refine ⟨{ s with cart_items := s.cart_items.map (fun j =>
        if j.id == it.id then { j with quantity := j.quantity + max 1 q } else j) },
      ?_, ?_, ?_, ?_⟩
    · unfold cart_add
      rw [hp]
      simp only [parseQuantityField, hq, hex]
    · simp
    · have := List.mem_map_of_mem
        (fun j => if j.id == it.id then { j with quantity := j.quantity + max 1 q } else j) hmem
      simpa using this
    · intro j hj hne
      have := List.mem_map_of_mem
        (fun j => if j.id == it.id then { j with quantity := j.quantity + max 1 q } else j) hj
      simpa [hne] using this
  · intro hex
    have hrun : cart_add s uid pid (some qs) =
        (Res.ok (),
         { s with
           cart_items := s.cart_items ++ [⟨s.next_cart_item_id, max 1 q, uid, p.id⟩],
           next_cart_item_id := s.next_cart_item_id + 1 }) := by
      unfold cart_add
      rw [hp]
      simp only [parseQuantityField, hq, hex]
    exact ⟨_, hrun, rfl⟩

/-- C4 witness: user 2 already has product 1 with quantity 2 in the cart
(the state after a first add with q = 2); adding with quantity string "2"
again leaves one merged row with quantity 2 + max 1 2 = 4. -/
theorem C4_addToCart_merges_witness :
    storeP.products.find? (fun x => x.id == 1) = some prodP ∧
    pythonInt "2" = some 2 ∧
    ((∀ it, storeP.cart_items.find? (fun i => i.user_id == 2 && i.product_id == prodP.id) = some it →
       ∃ s', cart_add storeP 2 1 (some "2") = (Res.ok (), s') ∧
         s'.cart_items.length = storeP.cart_items.length ∧
         { it with quantity := it.quantity + max 1 2 } ∈ s'.cart_items ∧
         (∀ j ∈ storeP.cart_items, j.id ≠ it.id → j ∈ s'.cart_items)) ∧
     (storeP.cart_items.find? (fun i => i.user_id == 2 && i.product_id == prodP.id) = none →
       ∃ s', cart_add storeP 2 1 (some "2") = (Res.ok (), s') ∧
         s'.cart_items = storeP.cart_items ++ [⟨storeP.next_cart_item_id, max 1 2, 2, prodP.id⟩])) :=
  ⟨by decide, by decide,
   C4_addToCart_merges storeP 2 1 prodP "2" 2 (by decide) (by decide)⟩

/-- C7: a successful registration is followed by a successful login with
the same raw email and password strings, resolving to the freshly created
user; and any second registration whose email normalizes (strip + lower)
to the same address, with non-blank password and username, fails with a
ConflictError and creates no user (the store is unchanged). -/
theorem C7_register_login_roundtrip (s : Store) (e pw un : String)
    (uid : Nat) (s' : Store)
    (hreg : register s e pw un = (Res.ok uid, s')) :
    login s' e pw = (Res.ok uid, s') ∧
    (∀ e2 pw2 un2, pyLower (pyStrip e2) = pyLower (pyStrip e) →
       pyStrip pw2 ≠ "" → pyStrip un2 ≠ "" →
       register s' e2 pw2 un2 = (Res.err Err.conflict, s')) := by
  unfold register at hreg
  by_cases hblank : pyLower (pyStrip e) = "" ∨ pyStrip pw = "" ∨ pyStrip un = ""
  · rw [if_pos hblank] at hreg
    exact absurd hreg (by simp)
  · rw [if_neg hblank] at hreg
    by_cases hdup : (s.users.find? (fun u => u.email == pyLower (pyStrip e))).isSome = true
    · rw [if_pos hdup] at hreg
      exact absurd hreg (by simp)
    · rw [if_neg hdup] at hreg
      have hnone : s.users.find? (fun u => u.email == pyLower (pyStrip e)) = none :=
        Option.not_isSome_iff_eq_none.mp hdup
      have huid : uid = s.next_user_id := by
        have := congrArg Prod.fst hreg
        simpa using this.symm
      have hs' : s' = { s with
          users := s.users ++ [⟨s.next_user_id, pyLower (pyStrip e),
            generate_password_hash (pyStrip pw), pyStrip un⟩],
          next_user_id := s.next_user_id + 1 } := by
        have := congrArg Prod.snd hreg
        simpa using this.symm
      have hemail : pyLower (pyStrip e) ≠ "" := fun h => hblank (Or.inl h)
      constructor
      · unfold login
        rw [hs']
        simp only [List.find?_append, hnone, Option.none_or, List.find?_cons,
          List.find?_nil]
        simp [check_password_hash, generate_password_hash, huid]
      · intro e2 pw2 un2 he2 hpw2 hun2
        unfold register
        rw [he2]
        rw [if_neg (by simp [hemail, hpw2, hun2])]
        rw [if_pos (by
          rw [hs']
          simp [List.find?_append, hnone, List.find?_cons])]

/-- The store after a concrete successful registration, for the C7 witness. -/
def storeR : Store := (register store0 "  A@B.com " "pw" "al").2

/-- C7 witness: a concrete registration, its login round trip, and the
conflict on re-registration with a differently-cased duplicate email. -/
theorem C7_register_login_roundtrip_witness :
    register store0 "  A@B.com " "pw" "al" = (Res.ok 1, storeR) ∧
    (login storeR "  A@B.com " "pw" = (Res.ok 1, storeR) ∧
     (∀ e2 pw2 un2, pyLower (pyStrip e2) = pyLower (pyStrip "  A@B.com ") →
        pyStrip pw2 ≠ "" → pyStrip un2 ≠ "" →
        register storeR e2 pw2 un2 = (Res.err Err.conflict, storeR))) :=
  ⟨by decide,
   C7_register_login_roundtrip store0 "  A@B.com " "pw" "al" 1 storeR (by decide)⟩

/-- The checkout loop converts each cart line whose product exists into the
snapshot order line built from the current product row, and accumulates
exactly the sum of price × quantity over the emitted lines. -/
theorem order_lines_spec (s : Store) (oid : Nat) :
    ∀ (items : List CartItem) (k : Nat),
      (∀ it ∈ items, (s.products.find? (fun x => x.id == it.product_id)).isSome) →
      ∃ ois t, order_lines s oid k items = some (ois, t) ∧
        t = (ois.map (fun oi => oi.product_price * (oi.quantity : ℚ))).sum ∧
        ois.length = items.length ∧
        (∀ oi ∈ ois, oi.order_id = oid) ∧
        List.Forall₂ (fun (it : CartItem) (oi : OrderItem) =>
          oi.quantity = it.quantity ∧
          ∃ p, s.products.find? (fun x => x.id == it.product_id) = some p ∧
            oi.product_title = p.title ∧ oi.product_price = p.price ∧
            oi.product_category = p.category ∧ oi.product_image_url = p.image)
          items ois := by
  intro items
  induction items with
  | nil =>
      intro k _
      exact ⟨[], 0, rfl, by simp, rfl, by simp, List.Forall₂.nil⟩
  | cons it rest ih =>
      intro k h
      obtain ⟨p, hp⟩ := Option.isSome_iff_exists.mp (h it (List.mem_cons_self it rest))
      obtain ⟨ois, t, heq, ht, hlen, hoid, hf⟩ :=
        ih (k + 1) (fun i hi => h i (List.mem_cons_of_mem it hi))
      refine ⟨⟨k, oid, p.title, p.price, it.quantity, p.category, p.image⟩ :: ois,
              p.price * (it.quantity : ℚ) + t, ?_, ?_, ?_, ?_, ?_⟩
      · simp [order_lines, hp, heq]
      · simp [ht]
      · simp [hlen]
      · intro oi hoi
        rcases List.mem_cons.mp hoi with h1 | h2
        · rw [h1]
        · exact hoid oi h2
      · exact List.Forall₂.cons ⟨rfl, p, hp, rfl, rfl, rfl, rfl⟩ hf

/-- C1: for a user whose cart is non-empty (and whose cart lines all still
reference existing products), checkout succeeds and appends exactly one
Order owned by that user whose total_amount is the sum of snapshot price ×
quantity over the appended OrderItems, appends one OrderItem per cart line
snapshotting the product's title, price, category and image plus the
line's quantity, and leaves the user with zero CartItems. -/
theorem C1_checkout_converts_cart (s : Store) (uid now : Nat)
    (hne : s.cart_items.filter (fun i => i.user_id == uid) ≠ [])
    (hprod : ∀ it ∈ s.cart_items.filter (fun i => i.user_id == uid),
      (s.products.find? (fun x => x.id == it.product_id)).isSome) :
    ∃ s' ois,
      checkout s uid now = (Res.ok s.next_order_id, s') ∧
      s'.orders = s.orders ++
        [⟨s.next_order_id, now,
          (ois.map (fun oi => oi.product_price * (oi.quantity : ℚ))).sum, uid⟩] ∧
      s'.order_items = s.order_items ++ ois ∧
      ois.length = (s.cart_items.filter (fun i => i.user_id == uid)).length ∧
      (∀ oi ∈ ois, oi.order_id = s.next_order_id) ∧
      List.Forall₂ (fun (it : CartItem) (oi : OrderItem) =>
        oi.quantity = it.quantity ∧
        ∃ p, s.products.find? (fun x => x.id == it.product_id) = some p ∧
          oi.product_title = p.title ∧ oi.product_price = p.price ∧
          oi.product_category = p.category ∧ oi.product_image_url = p.image)
        (s.cart_items.filter (fun i => i.user_id == uid)) ois ∧
      s'.cart_items.filter (fun i => i.user_id == uid) = [] := by
  obtain ⟨ois, t, heq, ht, hlen, hoid, hf⟩ :=
    order_lines_spec s s.next_order_id
      (s.cart_items.filter (fun i => i.user_id == uid)) s.next_order_item_id hprod
  have hrun : checkout s uid now =
      (Res.ok s.next_order_id,
       { s with
         orders := s.orders ++ [⟨s.next_order_id, now, t, uid⟩],
         order_items := s.order_items ++ ois,
         cart_items := s.cart_items.filter (fun i => i.user_id != uid),
         next_order_id := s.next_order_id + 1,
         next_order_item_id := s.next_order_item_id + ois.length }) := by
    unfold checkout
    dsimp only
    rw [if_neg hne, heq]
  refine ⟨_, ois, hrun, ?_, rfl, hlen, hoid, hf, ?_⟩
  · rw [ht]
  · simp only [List.filter_filter]
    have : ∀ i : CartItem, ((i.user_id == uid) && (i.user_id != uid)) = false := by
      intro i
      cases h : (i.user_id == uid) <;> simp [bne, h]
    simp [this]

/-- C1 witness: user 2 checks out the sample cart (one line, product 1,
quantity 2). -/
theorem C1_checkout_converts_cart_witness :
    storeP.cart_items.filter (fun i => i.user_id == 2) ≠ [] ∧
    (∀ it ∈ storeP.cart_items.filter (fun i => i.user_id == 2),
      (storeP.products.find? (fun x => x.id == it.product_id)).isSome) ∧
    (∃ s' ois,
      checkout storeP 2 9 = (Res.ok storeP.next_order_id, s') ∧
      s'.orders = storeP.orders ++
        [⟨storeP.next_order_id, 9,
          (ois.map (fun oi => oi.product_price * (oi.quantity : ℚ))).sum, 2⟩] ∧
      s'.order_items = storeP.order_items ++ ois ∧
      ois.length = (storeP.cart_items.filter (fun i => i.user_id == 2)).length ∧
      (∀ oi ∈ ois, oi.order_id = storeP.next_order_id) ∧
      List.Forall₂ (fun (it : CartItem) (oi : OrderItem) =>
        oi.quantity = it.quantity ∧
        ∃ p, storeP.products.find? (fun x => x.id == it.product_id) = some p ∧
          oi.product_title = p.title ∧ oi.product_price = p.price ∧
          oi.product_category = p.category ∧ oi.product_image_url = p.image)
        (storeP.cart_items.filter (fun i => i.user_id == 2)) ois ∧
      s'.cart_items.filter (fun i => i.user_id == 2) = []) :=
  ⟨by decide, by decide, C1_checkout_converts_cart storeP 2 9 (by decide) (by decide)⟩

end EcoFinds
